import Mathlib

/-!
Verification development for the fspy2vmd converter
(`FspyVmdConverter`: fSpy calibration → three.js camera → VMD camera motion).

The converter's own code is embedded shallowly below.  The scene-graph
camera's internal math primitives (matrix decomposition, local-matrix
composition, Euler-angle extraction) and the IEEE-754 float32 byte encoding
are external library collaborators; they are taken as explicit function
parameters of the embedded operations.
-/

namespace Fspy2Vmd

/-- Error codes of the converter (`FSPY_VMD_CONVERTER_ERROR_CODE` in types.ts). -/
inductive FspyVmdConverterErrorCode where
  | FSPY_DATA_NOT_SET
  | INVALID_CAMERA_TRANSFORM_ROWS_SIZE
  | INVALID_CAMERA_TRANSFORM_VALUE
  deriving DecidableEq

/-- Constant `MATRIX_SIZE = 4` from the source. -/
def MATRIX_SIZE : ℕ := 4

/-- Constant `MATRIX_ELEMENT_COUNT = 16` from the source. -/
def MATRIX_ELEMENT_COUNT : ℕ := 16

/-- Shallow embedding of `FspyVmdConverter.matrixFromFSpyRows`.

A row element that is a JS `undefined` (array hole / missing) is modelled as
`none`.  The source first checks the 4×4 shape
(`rows.length !== 4 || rows.some(row => row.length !== 4)`), then iterates
over all (rowIndex, colIndex) pairs, throwing `INVALID_CAMERA_TRANSFORM_VALUE`
on a missing element, and stores `rows[row][col]` at destination index
`col*4 + row` (column-major).  Destination index `i` therefore holds
`rows[i % 4][i / 4]`.  The function is polymorphic in the element type since
it never computes with the numeric values. -/
def matrixFromFSpyRows {α : Type} [Inhabited α] (rows : List (List (Option α))) :
    Except FspyVmdConverterErrorCode (List α) :=
  if rows.length != MATRIX_SIZE || rows.any (fun row => row.length != MATRIX_SIZE) then
    Except.error FspyVmdConverterErrorCode.INVALID_CAMERA_TRANSFORM_ROWS_SIZE
  else
    let elems := (List.range MATRIX_ELEMENT_COUNT).map
      (fun i => (rows.getD (i % MATRIX_SIZE) []).getD (i / MATRIX_SIZE) none)
    if elems.any (fun v => v.isNone) then
      Except.error FspyVmdConverterErrorCode.INVALID_CAMERA_TRANSFORM_VALUE
    else
      Except.ok (elems.map (fun v => v.getD default))

/-- A fully populated 4×4 row-major input, given by a function on indices. -/
def rowsOfFun (M : ℕ → ℕ → ℚ) : List (List (Option ℚ)) :=
  (List.range 4).map (fun r => (List.range 4).map (fun c => some (M r c)))

/-- The column-major 16-element array that the source's transpose produces:
index `col*4 + row` (that is, index `i` holds the element at row `i % 4`,
column `i / 4`). -/
def columnMajorOfFun (M : ℕ → ℕ → ℚ) : List ℚ :=
  (List.range 16).map (fun i => M (i % 4) (i / 4))

/-- The inverse re-transposition: read row `r`, column `c` of a column-major
16-element array back from index `c*4 + r`. -/
def transposeBack (arr : List ℚ) : List (List ℚ) :=
  (List.range 4).map (fun r => (List.range 4).map (fun c => arr.getD (c * 4 + r) 0))

theorem getD_range_map {α : Type} (f : ℕ → α) (n i : ℕ) (d : α) (h : i < n) :
    ((List.range n).map f).getD i d = f i := by
  rw [List.getD_eq_getElem?_getD]
  simp [List.getElem?_map, List.getElem?_range, h]

theorem rowsOfFun_elem (M : ℕ → ℕ → ℚ) (i : ℕ) (hi : i < 16) :
    ((rowsOfFun M).getD (i % 4) []).getD (i / 4) none = some (M (i % 4) (i / 4)) := by
  rw [rowsOfFun, getD_range_map _ 4 (i % 4) [] (by omega),
    getD_range_map _ 4 (i / 4) none (by omega)]

/-- C3: the conversion stores `src[row][col]` at destination index
`col*4 + row`, and re-transposing recovers the original matrix
element-for-element. -/
theorem C3_transpose_round_trip (M : ℕ → ℕ → ℚ) :
    matrixFromFSpyRows (rowsOfFun M) = Except.ok (columnMajorOfFun M)
    ∧ (∀ r c : ℕ, r < 4 → c < 4 → (columnMajorOfFun M).getD (c * 4 + r) 0 = M r c)
    ∧ transposeBack (columnMajorOfFun M) =
        (List.range 4).map (fun r => (List.range 4).map (fun c => M r c)) := by
  have storage : ∀ r c : ℕ, r < 4 → c < 4 →
      (columnMajorOfFun M).getD (c * 4 + r) 0 = M r c := by
    intro r c hr hc
    rw [columnMajorOfFun, getD_range_map _ 16 (c * 4 + r) 0 (by omega)]
    have h1 : (c * 4 + r) % 4 = r := by omega
    have h2 : (c * 4 + r) / 4 = c := by omega
    rw [h1, h2]
  refine ⟨?_, storage, ?_⟩
  · have hshape : (((rowsOfFun M).length != MATRIX_SIZE) ||
        (rowsOfFun M).any (fun row => row.length != MATRIX_SIZE)) = false := by
      simp [rowsOfFun, MATRIX_SIZE]
    rw [matrixFromFSpyRows, hshape]
    simp only [Bool.false_eq_true, if_false]
    have hnone : (((List.range MATRIX_ELEMENT_COUNT).map
        (fun i => ((rowsOfFun M).getD (i % MATRIX_SIZE) []).getD (i / MATRIX_SIZE) none)).any
          (fun v => v.isNone)) = false := by
      rw [List.any_eq_false]
      intro x hx
      rw [List.mem_map] at hx
      obtain ⟨i, hi, rfl⟩ := hx
      rw [List.mem_range] at hi
      rw [MATRIX_ELEMENT_COUNT] at hi
      simp only [MATRIX_SIZE, rowsOfFun_elem M i hi, Option.isNone_some, Bool.false_eq_true,
        not_false_eq_true]
    rw [hnone]
    simp only [Bool.false_eq_true, if_false, Except.ok.injEq]
    rw [List.map_map, columnMajorOfFun]
    apply List.map_congr_left
    intro i hi
    rw [List.mem_range, MATRIX_ELEMENT_COUNT] at hi
    show (((rowsOfFun M).getD (i % 4) []).getD (i / 4) none).getD default = M (i % 4) (i / 4)
    rw [rowsOfFun_elem M i hi]
    rfl
  · rw [transposeBack]
    apply List.map_congr_left
    intro r hr
    rw [List.mem_range] at hr
    apply List.map_congr_left
    intro c hc
    rw [List.mem_range] at hc
    exact storage r c hr hc

theorem C3_transpose_round_trip_witness :
    (columnMajorOfFun (fun r c => (r * 10 + c : ℚ))).getD (2 * 4 + 1) 0 = (12 : ℚ) := by
  have h :=
    (C3_transpose_round_trip (fun r c => (r * 10 + c : ℚ))).2.1 1 2 (by norm_num) (by norm_num)
  norm_num at h ⊢
  exact h

/-- C6: shape validation fails with `INVALID_CAMERA_TRANSFORM_ROWS_SIZE` for
every input that is not exactly 4 rows of length 4, and a 4×4-shaped input
with a missing element fails with `INVALID_CAMERA_TRANSFORM_VALUE`; in both
cases an error is returned instead of a constructed matrix. -/
theorem C6_matrix_validation (rows : List (List (Option ℚ))) :
    ((rows.length ≠ 4 ∨ ∃ row ∈ rows, row.length ≠ 4) →
      matrixFromFSpyRows rows =
        Except.error FspyVmdConverterErrorCode.INVALID_CAMERA_TRANSFORM_ROWS_SIZE)
    ∧ (rows.length = 4 → (∀ row ∈ rows, row.length = 4) →
      (∃ r : ℕ, r < 4 ∧ ∃ c : ℕ, c < 4 ∧ (rows.getD r []).getD c none = none) →
      matrixFromFSpyRows rows =
        Except.error FspyVmdConverterErrorCode.INVALID_CAMERA_TRANSFORM_VALUE) := by
  constructor
  · intro h
    have hb : ((rows.length != MATRIX_SIZE) ||
        rows.any (fun row => row.length != MATRIX_SIZE)) = true := by
      simp only [MATRIX_SIZE, Bool.or_eq_true, bne_iff_ne, ne_eq, List.any_eq_true]
      rcases h with h | ⟨row, hm, hl⟩
      · exact Or.inl h
      · exact Or.inr ⟨row, hm, hl⟩
    rw [matrixFromFSpyRows, hb]
    simp
  · intro h4 hall h
    obtain ⟨r, hr, c, hc, hnone⟩ := h
    have hb : ((rows.length != MATRIX_SIZE) ||
        rows.any (fun row => row.length != MATRIX_SIZE)) = false := by
      simp only [MATRIX_SIZE, Bool.or_eq_false_iff, bne_eq_false_iff_eq, List.any_eq_false,
        bne_iff_ne, ne_eq, not_not]
      exact ⟨h4, hall⟩
    rw [matrixFromFSpyRows, hb]
    simp only [Bool.false_eq_true, if_false]
    have hany : (((List.range MATRIX_ELEMENT_COUNT).map
        (fun i => (rows.getD (i % MATRIX_SIZE) []).getD (i / MATRIX_SIZE) none)).any
          (fun v => v.isNone)) = true := by
      rw [List.any_eq_true]
      refine ⟨(rows.getD ((c * 4 + r) % MATRIX_SIZE) []).getD
        ((c * 4 + r) / MATRIX_SIZE) none, List.mem_map.mpr ⟨c * 4 + r, ?_, rfl⟩, ?_⟩
      · rw [List.mem_range, MATRIX_ELEMENT_COUNT]
        omega
      · have h1 : (c * 4 + r) % MATRIX_SIZE = r := by rw [MATRIX_SIZE]; omega
        have h2 : (c * 4 + r) / MATRIX_SIZE = c := by rw [MATRIX_SIZE]; omega
        rw [h1, h2, hnone]
        rfl
    rw [hany]
    simp

theorem C6_matrix_validation_witness :
    matrixFromFSpyRows [[some (1 : ℚ)], [], []] =
      Except.error FspyVmdConverterErrorCode.INVALID_CAMERA_TRANSFORM_ROWS_SIZE
    ∧ matrixFromFSpyRows
        [[some (1 : ℚ), some 2, some 3, none],
         [some 5, some 6, some 7, some 8],
         [some 9, some 10, some 11, some 12],
         [some 13, some 14, some 15, some 16]] =
      Except.error FspyVmdConverterErrorCode.INVALID_CAMERA_TRANSFORM_VALUE :=
  ⟨(C6_matrix_validation [[some (1 : ℚ)], [], []]).1 (by decide),
   (C6_matrix_validation _).2 (by decide) (by decide) (by decide)⟩

/-! VMD binary writer (`FspyVmdConverter.writeCameraVmd`).

A buffer is a `List ℕ` of byte values.  `writeFloat32` (IEEE-754 float32,
little endian) is an external encoding taken as a parameter `enc32`; every
theorem that needs it assumes only that it produces 4 bytes per value. -/

/-- Constant `VMD_HEADER_SIZE = 30`. -/
def VMD_HEADER_SIZE : ℕ := 30

/-- Constant `VMD_MODEL_NAME_SIZE = 20`. -/
def VMD_MODEL_NAME_SIZE : ℕ := 20

/-- Constant `CAMERA_CURVE_START = 20`. -/
def CAMERA_CURVE_START : ℕ := 20

/-- Constant `CAMERA_CURVE_END = 107`. -/
def CAMERA_CURVE_END : ℕ := 107

/-- The VMD header signature string written by `writeCameraVmd`. -/
def VMD_SIGNATURE : String := "Vocaloid Motion Data 0002"

/-- Pre-encoded Shift-JIS bytes of the camera/light model name
(`CAMERA_MODEL_NAME_SJIS` in the source). -/
def CAMERA_MODEL_NAME_SJIS : List ℕ :=
  [0x83, 0x4a, 0x83, 0x81, 0x83, 0x89, 0x81, 0x45, 0x8f, 0xc6, 0x96, 0xbe]

/-- A VMD camera frame (`CameraFrame` in types.ts).  The `curve` field is a
24-tuple in the source's type, modelled as a function on `Fin 24`. -/
structure CameraFrame where
  frameTime : ℤ
  distance : ℝ
  position : ℝ × ℝ × ℝ
  rotation : ℝ × ℝ × ℝ
  curve : Fin 24 → ℕ
  viewAngle : ℤ
  orthographic : ℕ

/-- Shallow embedding of `createDefaultCameraCurve`: 12 pushed pairs
`(20, 107)`, so even indices hold 20 and odd indices hold 107. -/
def createDefaultCameraCurve : Fin 24 → ℕ :=
  fun i => if i.1 % 2 = 0 then CAMERA_CURVE_START else CAMERA_CURVE_END

/-- Little-endian bytes of `DataView.setUint32(_, value, true)`: the value is
reduced modulo 2^32 (JS ToUint32) and split into 4 bytes. -/
def uint32LE (value : ℤ) : List ℕ :=
  [(value % 2 ^ 32).toNat % 2 ^ 8,
   (value % 2 ^ 32).toNat / 2 ^ 8 % 2 ^ 8,
   (value % 2 ^ 32).toNat / 2 ^ 16 % 2 ^ 8,
   (value % 2 ^ 32).toNat / 2 ^ 24 % 2 ^ 8]

/-- Shallow embedding of the local helper `writeAscii`: each of the first
`min str.length length` bytes is the char code masked to its low 7 bits
(`& 0x7f`, i.e. `% 128`), the remainder is zero padding. -/
def writeAsciiBytes (str : String) (length : ℕ) : List ℕ :=
  (List.range length).map (fun i => (str.data.map Char.toNat).getD i 0 % 128)

/-- Shallow embedding of the local helper `writeBytes`: the byte sequence
truncated/zero-padded to exactly `length` bytes. -/
def writeBytesPadded (bytes : List ℕ) (length : ℕ) : List ℕ :=
  (List.range length).map (fun i => bytes.getD i 0)

/-- One camera frame as written by the frame loop of `writeCameraVmd`
(61 bytes when `enc32` produces 4 bytes per float):
frameTime, distance, position x/y/z, rotation x/y/z, 24 curve bytes,
viewAngle, orthographic.  `setUint8` reduces each value modulo 256. -/
def writeCameraFrame (enc32 : ℝ → List ℕ) (frame : CameraFrame) : List ℕ :=
  uint32LE frame.frameTime ++
  enc32 frame.distance ++
  enc32 frame.position.1 ++ enc32 frame.position.2.1 ++ enc32 frame.position.2.2 ++
  enc32 frame.rotation.1 ++ enc32 frame.rotation.2.1 ++ enc32 frame.rotation.2.2 ++
  (List.ofFn frame.curve).map (fun c => c % 2 ^ 8) ++
  uint32LE frame.viewAngle ++
  [frame.orthographic % 2 ^ 8]

/-- Shallow embedding of `FspyVmdConverter.writeCameraVmd`: header signature
(30 bytes), model name (20 bytes), bone count 0, morph count 0, camera frame
count, the frames, then light/shadow/IK counts 0. -/
def writeCameraVmd (enc32 : ℝ → List ℕ) (cameraFrames : List CameraFrame) : List ℕ :=
  writeAsciiBytes VMD_SIGNATURE VMD_HEADER_SIZE ++
  writeBytesPadded CAMERA_MODEL_NAME_SJIS VMD_MODEL_NAME_SIZE ++
  uint32LE 0 ++
  uint32LE 0 ++
  uint32LE (cameraFrames.length : ℤ) ++
  (cameraFrames.map (writeCameraFrame enc32)).flatten ++
  uint32LE 0 ++ uint32LE 0 ++ uint32LE 0

/-- Little-endian uint32 decoder used to read a count field back out of a
produced buffer. -/
def readUint32LE (buf : List ℕ) (offset : ℕ) : ℕ :=
  buf.getD offset 0 + 2 ^ 8 * buf.getD (offset + 1) 0 +
    2 ^ 16 * buf.getD (offset + 2) 0 + 2 ^ 24 * buf.getD (offset + 3) 0

/-- A concrete stand-in float32 encoder for witnesses (4 zero bytes per value). -/
def enc0 : ℝ → List ℕ := fun _ => [0, 0, 0, 0]

/-- A concrete camera frame with all-default content for witnesses. -/
def frame0 : CameraFrame :=
  { frameTime := 0, distance := 0, position := (0, 0, 0), rotation := (0, 0, 0),
    curve := createDefaultCameraCurve, viewAngle := 0, orthographic := 0 }

theorem writeCameraFrame_length (enc32 : ℝ → List ℕ) (henc : ∀ v, (enc32 v).length = 4)
    (frame : CameraFrame) : (writeCameraFrame enc32 frame).length = 61 := by
  simp [writeCameraFrame, uint32LE, henc]

theorem writeCameraVmd_assoc (enc32 : ℝ → List ℕ) (frames : List CameraFrame) :
    writeCameraVmd enc32 frames =
      (writeAsciiBytes VMD_SIGNATURE VMD_HEADER_SIZE ++
        writeBytesPadded CAMERA_MODEL_NAME_SJIS VMD_MODEL_NAME_SIZE ++
        uint32LE 0 ++ uint32LE 0) ++
      (uint32LE (frames.length : ℤ) ++
        ((frames.map (writeCameraFrame enc32)).flatten ++
          (uint32LE 0 ++ (uint32LE 0 ++ uint32LE 0)))) := by
  rw [writeCameraVmd]
  simp [List.append_assoc]

theorem writeCameraVmd_prefix_length :
    (writeAsciiBytes VMD_SIGNATURE VMD_HEADER_SIZE ++
      writeBytesPadded CAMERA_MODEL_NAME_SJIS VMD_MODEL_NAME_SIZE ++
      uint32LE 0 ++ uint32LE 0).length = 58 := by
  simp [writeAsciiBytes, writeBytesPadded, uint32LE, VMD_HEADER_SIZE, VMD_MODEL_NAME_SIZE]

theorem writeCameraVmd_getD_camera_count (enc32 : ℝ → List ℕ) (frames : List CameraFrame)
    (k : ℕ) (hk : k < 4) :
    (writeCameraVmd enc32 frames).getD (58 + k) 0 =
      (uint32LE (frames.length : ℤ)).getD k 0 := by
  rw [writeCameraVmd_assoc]
  rw [List.getD_append_right _ _ _ _ (by rw [writeCameraVmd_prefix_length]; omega),
    writeCameraVmd_prefix_length]
  have h58 : 58 + k - 58 = k := by omega
  rw [h58]
  exact List.getD_append _ _ _ _ (by simpa [uint32LE] using hk)

theorem writeCameraVmd_getD_morph_count (enc32 : ℝ → List ℕ) (frames : List CameraFrame)
    (k : ℕ) (hk : k < 4) :
    (writeCameraVmd enc32 frames).getD (54 + k) 0 = 0 := by
  rw [writeCameraVmd_assoc]
  rw [List.getD_append _ _ _ _ (by rw [writeCameraVmd_prefix_length]; omega)]
  have h1 : (writeAsciiBytes VMD_SIGNATURE VMD_HEADER_SIZE ++
      writeBytesPadded CAMERA_MODEL_NAME_SJIS VMD_MODEL_NAME_SIZE ++
      uint32LE 0).length = 54 := by
    simp [writeAsciiBytes, writeBytesPadded, uint32LE, VMD_HEADER_SIZE, VMD_MODEL_NAME_SIZE]
  rw [List.getD_append_right _ _ _ _ (by rw [h1]; omega), h1]
  have h2 : 54 + k - 54 = k := by omega
  rw [h2]
  rcases (by omega : k = 0 ∨ k = 1 ∨ k = 2 ∨ k = 3) with h | h | h | h <;> subst h <;> rfl

theorem writeCameraVmd_length (enc32 : ℝ → List ℕ) (henc : ∀ v, (enc32 v).length = 4)
    (frames : List CameraFrame) :
    (writeCameraVmd enc32 frames).length = 74 + 61 * frames.length := by
  have hjoin : ((frames.map (writeCameraFrame enc32)).flatten).length = 61 * frames.length := by
    induction frames with
    | nil => simp
    | cons f fs ih =>
      simp only [List.map_cons, List.flatten_cons, List.length_append, ih,
        writeCameraFrame_length enc32 henc f, List.length_cons]
      ring
  simp only [writeCameraVmd, List.length_append, hjoin]
  simp [writeAsciiBytes, writeBytesPadded, uint32LE, VMD_HEADER_SIZE, VMD_MODEL_NAME_SIZE]
  omega

theorem readUint32LE_writeCameraVmd (enc32 : ℝ → List ℕ) (frames : List CameraFrame) :
    readUint32LE (writeCameraVmd enc32 frames) 58 = frames.length % 2 ^ 32 := by
  have h0 := writeCameraVmd_getD_camera_count enc32 frames 0 (by omega)
  have h1 := writeCameraVmd_getD_camera_count enc32 frames 1 (by omega)
  have h2 := writeCameraVmd_getD_camera_count enc32 frames 2 (by omega)
  have h3 := writeCameraVmd_getD_camera_count enc32 frames 3 (by omega)
  rw [readUint32LE, show (58 : ℕ) = 58 + 0 from rfl]
  rw [show 58 + 0 + 1 = 58 + 1 from rfl, show 58 + 0 + 2 = 58 + 2 from rfl,
    show 58 + 0 + 3 = 58 + 3 from rfl, h0, h1, h2, h3]
  have hm : ((frames.length : ℤ) % 2 ^ 32).toNat = frames.length % 2 ^ 32 := by omega
  simp only [uint32LE, hm, List.getD_cons_zero, List.getD_cons_succ]
  omega

/-- C7: encoding N frames yields exactly `30 + 20 + 24 + 61*N` bytes, the
first 30 bytes are the zero-padded ASCII signature "Vocaloid Motion Data
0002", and decoding the little-endian camera-frame count field (offset 58)
recovers N. -/
theorem C7_writeCameraVmd_layout (enc32 : ℝ → List ℕ) (henc : ∀ v, (enc32 v).length = 4)
    (frames : List CameraFrame) (hn : frames.length < 2 ^ 32) :
    (writeCameraVmd enc32 frames).length = 30 + 20 + 24 + 61 * frames.length
    ∧ (writeCameraVmd enc32 frames).take 30 =
        VMD_SIGNATURE.data.map Char.toNat ++ List.replicate 5 0
    ∧ readUint32LE (writeCameraVmd enc32 frames) 58 = frames.length := by
  refine ⟨?_, ?_, ?_⟩
  · rw [writeCameraVmd_length enc32 henc frames]
  · rw [writeCameraVmd]
    have hlen : (writeAsciiBytes VMD_SIGNATURE VMD_HEADER_SIZE).length = 30 := by
      simp [writeAsciiBytes, VMD_HEADER_SIZE]
    rw [show writeAsciiBytes VMD_SIGNATURE VMD_HEADER_SIZE ++
        writeBytesPadded CAMERA_MODEL_NAME_SJIS VMD_MODEL_NAME_SIZE ++
        uint32LE 0 ++ uint32LE 0 ++ uint32LE (frames.length : ℤ) ++
        (frames.map (writeCameraFrame enc32)).flatten ++
        uint32LE 0 ++ uint32LE 0 ++ uint32LE 0 =
      writeAsciiBytes VMD_SIGNATURE VMD_HEADER_SIZE ++
        (writeBytesPadded CAMERA_MODEL_NAME_SJIS VMD_MODEL_NAME_SIZE ++
          (uint32LE 0 ++ (uint32LE 0 ++ (uint32LE (frames.length : ℤ) ++
            ((frames.map (writeCameraFrame enc32)).flatten ++
              (uint32LE 0 ++ (uint32LE 0 ++ uint32LE 0))))))) from by
        simp [List.append_assoc]]
    rw [← hlen, List.take_left]
    decide
  · rw [readUint32LE_writeCameraVmd enc32 frames]
    omega

theorem C7_writeCameraVmd_layout_witness :
    (writeCameraVmd enc0 [frame0, frame0]).length = 30 + 20 + 24 + 61 * 2
    ∧ readUint32LE (writeCameraVmd enc0 [frame0, frame0]) 58 = 2 := by
  have h := C7_writeCameraVmd_layout enc0 (fun v => rfl) [frame0, frame0] (by norm_num)
  exact ⟨h.1, h.2.2⟩

/-- C2 (amended): encoding a single frame with `frameTime = 0` yields exactly
135 bytes; the little-endian camera-frame count field starts at byte offset
58 (not 54) and its first byte equals 1, while the byte at offset 54 is the
first byte of the morph-frame count and equals 0. -/
theorem C2_single_frame_buffer (enc32 : ℝ → List ℕ) (henc : ∀ v, (enc32 v).length = 4)
    (frame : CameraFrame) (hft : frame.frameTime = 0) :
    (writeCameraVmd enc32 [frame]).length = 135
    ∧ (writeCameraVmd enc32 [frame]).getD 58 0 = 1
    ∧ (writeCameraVmd enc32 [frame]).getD 54 0 = 0 := by
  refine ⟨?_, ?_, ?_⟩
  · rw [writeCameraVmd_length enc32 henc [frame]]
    simp
  · have h := writeCameraVmd_getD_camera_count enc32 [frame] 0 (by omega)
    simpa using h
  · have h := writeCameraVmd_getD_morph_count enc32 [frame] 0 (by omega)
    simpa using h

theorem C2_single_frame_buffer_witness :
    (writeCameraVmd enc0 [frame0]).length = 135
    ∧ (writeCameraVmd enc0 [frame0]).getD 58 0 = 1
    ∧ (writeCameraVmd enc0 [frame0]).getD 54 0 = 0 :=
  C2_single_frame_buffer enc0 (fun v => rfl) frame0 rfl

/-- C2 counterexample: for a single default frame the byte at offset 54 is 0
(it belongs to the morph-frame count), not 1 as the claim states; the
camera-frame count field is at offset 58. -/
theorem C2_offset54_counterexample :
    (writeCameraVmd enc0 [frame0]).length = 135
    ∧ ¬ (writeCameraVmd enc0 [frame0]).getD 54 0 = 1 := by
  have hlen := writeCameraVmd_length enc0 (fun v => rfl) [frame0]
  have h54 := writeCameraVmd_getD_morph_count enc0 [frame0] 0 (by omega)
  simp only [show (54 : ℕ) + 0 = 54 from rfl] at h54
  refine ⟨?_, ?_⟩
  · rw [hlen]
    simp
  · omega

/-! Converter state and the two pipeline stages
(`FspyVmdConverter.applyFSpyToCamera`, `FspyVmdConverter.exportVmd`).

`Matrix4.decompose` (world matrix → position/quaternion/scale), the local
matrix composition performed by `updateMatrix`, and
`Euler.setFromQuaternion(_, "YXZ")` are primitives of the external camera
library; the embedded operations take them as function parameters
`decompose`, `compose` and `eulerYXZ`.  Exceptions of the source are
modelled by returning the mutated-so-far state together with an
`Option FspyVmdConverterErrorCode` (a thrown JS error leaves all
mutations performed before the throw in place). -/

/-- Type `FspyPoint` from types.ts. -/
structure FspyPoint where
  x : ℝ
  y : ℝ

/-- Type `FspyTransformMatrix` from types.ts; a missing matrix entry is `none`. -/
structure FspyTransformMatrix where
  rows : List (List (Option ℝ))

/-- Type `VanishingPointAxis` from types.ts. -/
inductive VanishingPointAxis where
  | xPositive
  | xNegative
  | yPositive
  | yNegative
  | zPositive
  | zNegative

/-- Type `FspyData` from types.ts. -/
structure FspyData where
  principalPoint : FspyPoint
  viewTransform : FspyTransformMatrix
  cameraTransform : FspyTransformMatrix
  horizontalFieldOfView : ℝ
  verticalFieldOfView : ℝ
  vanishingPoints : List FspyPoint
  vanishingPointAxes : List VanishingPointAxis
  relativeFocalLength : ℝ
  imageWidth : ℝ
  imageHeight : ℝ

/-- The camera fields read or written by the converter (three.js
`PerspectiveCamera` contract): projection parameters, the column-major world
matrix and local matrix, decomposed position/quaternion/scale, and the
`matrixAutoUpdate` flag.  The projection matrix itself is derived state
recomputed from fov/aspect/near/far by `updateProjectionMatrix` and is not
read back by the converter, so it is not a stored field here. -/
structure Camera where
  fov : ℝ
  aspect : ℝ
  near : ℝ
  far : ℝ
  matrixAutoUpdate : Bool
  matrix : List ℝ
  matrixWorld : List ℝ
  position : ℝ × ℝ × ℝ
  quaternion : ℝ × ℝ × ℝ × ℝ
  scale : ℝ × ℝ × ℝ

/-- The converter's held state: the borrowed camera, the last applied fSpy
record (`null` initially) and the construction-time option. -/
structure FspyVmdConverterState where
  camera : Camera
  fspyData : Option FspyData
  distanceBaseMultiplier : ℝ

/-- Type `ApplyFSpyToCameraOptions` from types.ts. -/
structure ApplyFSpyToCameraOptions where
  near : Option ℝ := none
  far : Option ℝ := none

/-- Type `ExportVmdOptions` from types.ts. -/
structure ExportVmdOptions where
  distanceMultiplier : Option ℝ := none
  target : Option (ℝ × ℝ × ℝ) := none
  frameTime : Option ℤ := none

/-- Constant `DEFAULT_NEAR = 0.01`. -/
noncomputable def DEFAULT_NEAR : ℝ := 0.01

/-- Constant `DEFAULT_FAR = 2000`. -/
def DEFAULT_FAR : ℝ := 2000

/-- Constant `DISTANCE_BASE_MULTIPLIER = 5` (default of the converter option). -/
def DISTANCE_BASE_MULTIPLIER : ℝ := 5

/-- Shallow embedding of `radToDeg`: `radian * 180 / Math.PI`. -/
noncomputable def radToDeg (radian : ℝ) : ℝ := radian * 180 / Real.pi

/-- Shallow embedding of `FspyVmdConverter.applyFSpyToCamera`.

Statement order of the source: replace the held record with a (defensive
copy of the) new one; assign fov (converted to degrees), aspect, near, far;
recompute the projection matrix; convert the fSpy matrix (the throw point of
the two matrix validation errors); then set `matrixAutoUpdate := false`,
copy the converted matrix into `matrixWorld`, decompose it into
position/quaternion/scale, recompute the local matrix from them
(`updateMatrix`), and copy it back into `matrixWorld`
(`updateMatrixWorld(true)`, the camera having no parent). -/
noncomputable def applyFSpyToCamera
    (decompose : List ℝ → (ℝ × ℝ × ℝ) × (ℝ × ℝ × ℝ × ℝ) × (ℝ × ℝ × ℝ))
    (compose : (ℝ × ℝ × ℝ) → (ℝ × ℝ × ℝ × ℝ) → (ℝ × ℝ × ℝ) → List ℝ)
    (st : FspyVmdConverterState) (fspy : FspyData) (opts : ApplyFSpyToCameraOptions) :
    FspyVmdConverterState × Option FspyVmdConverterErrorCode :=
  let st1 : FspyVmdConverterState := { st with fspyData := some fspy }
  let cam1 : Camera := { st1.camera with
    fov := radToDeg fspy.verticalFieldOfView
    aspect := fspy.imageWidth / fspy.imageHeight
    near := opts.near.getD DEFAULT_NEAR
    far := opts.far.getD DEFAULT_FAR }
  match matrixFromFSpyRows fspy.cameraTransform.rows with
  | Except.error e => ({ st1 with camera := cam1 }, some e)
  | Except.ok camWorld =>
      let cam2 : Camera := { cam1 with matrixAutoUpdate := false, matrixWorld := camWorld }
      let pqs := decompose cam2.matrixWorld
      let cam3 : Camera := { cam2 with position := pqs.1, quaternion := pqs.2.1, scale := pqs.2.2 }
      let cam4 : Camera := { cam3 with matrix := compose cam3.position cam3.quaternion cam3.scale }
      let cam5 : Camera := { cam4 with matrixWorld := cam4.matrix }
      ({ st1 with camera := cam5 }, none)

/-- `Object3D.getWorldPosition`: the translation column of the column-major
world matrix (elements 12, 13, 14). -/
noncomputable def getWorldPosition (camera : Camera) : ℝ × ℝ × ℝ :=
  (camera.matrixWorld.getD 12 0, camera.matrixWorld.getD 13 0, camera.matrixWorld.getD 14 0)

/-- `Object3D.getWorldQuaternion`: the quaternion part of decomposing the
world matrix. -/
noncomputable def getWorldQuaternion
    (decompose : List ℝ → (ℝ × ℝ × ℝ) × (ℝ × ℝ × ℝ × ℝ) × (ℝ × ℝ × ℝ))
    (camera : Camera) : ℝ × ℝ × ℝ × ℝ :=
  (decompose camera.matrixWorld).2.1

/-- Euclidean distance of `Vector3.distanceTo`. -/
noncomputable def v3dist (a b : ℝ × ℝ × ℝ) : ℝ :=
  Real.sqrt ((a.1 - b.1) ^ 2 + (a.2.1 - b.2.1) ^ 2 + (a.2.2 - b.2.2) ^ 2)

/-- The camera frame built inside `exportVmd` (spec §4.2 `deriveFrame`):
target defaults to the origin; `distance` is the negated Euclidean distance
from the camera's world position to the target, scaled by
`distanceMultiplier` (default 1) and the converter's
`distanceBaseMultiplier`; world orientation is decomposed in YXZ order and
only the Z angle is negated; `viewAngle` is the rounded fov;
`orthographic = 0`. -/
noncomputable def deriveCameraFrame
    (decompose : List ℝ → (ℝ × ℝ × ℝ) × (ℝ × ℝ × ℝ × ℝ) × (ℝ × ℝ × ℝ))
    (eulerYXZ : ℝ × ℝ × ℝ × ℝ → ℝ × ℝ × ℝ)
    (st : FspyVmdConverterState) (options : ExportVmdOptions) : CameraFrame :=
  let camera := st.camera
  let target := options.target.getD (0, 0, 0)
  let camPos := getWorldPosition camera
  let distanceMultiplier := options.distanceMultiplier.getD 1
  let distance := -v3dist camPos target * distanceMultiplier * st.distanceBaseMultiplier
  let camQuat := getWorldQuaternion decompose camera
  let euler := eulerYXZ camQuat
  { frameTime := options.frameTime.getD 0
    distance := distance
    position := (target.1, target.2.1, target.2.2)
    rotation := (euler.1, euler.2.1, -euler.2.2)
    curve := createDefaultCameraCurve
    viewAngle := round camera.fov
    orthographic := 0 }

/-- Shallow embedding of `FspyVmdConverter.exportVmd`: throws
`FSPY_DATA_NOT_SET` when no fSpy record is held, otherwise encodes exactly
the singleton frame list.  The method assigns no converter field, so the
returned state is the input state in both branches. -/
noncomputable def exportVmd (enc32 : ℝ → List ℕ)
    (decompose : List ℝ → (ℝ × ℝ × ℝ) × (ℝ × ℝ × ℝ × ℝ) × (ℝ × ℝ × ℝ))
    (eulerYXZ : ℝ × ℝ × ℝ × ℝ → ℝ × ℝ × ℝ)
    (st : FspyVmdConverterState) (options : ExportVmdOptions) :
    Except FspyVmdConverterErrorCode (List ℕ) × FspyVmdConverterState :=
  match st.fspyData with
  | none => (Except.error FspyVmdConverterErrorCode.FSPY_DATA_NOT_SET, st)
  | some _ =>
      (Except.ok (writeCameraVmd enc32 [deriveCameraFrame decompose eulerYXZ st options]), st)

/-! Concrete instances for witnesses and counterexamples. -/

/-- A concrete stand-in for the library's matrix decomposition. -/
def dec0 : List ℝ → (ℝ × ℝ × ℝ) × (ℝ × ℝ × ℝ × ℝ) × (ℝ × ℝ × ℝ) :=
  fun _ => ((0, 0, 0), (0, 0, 0, 1), (1, 1, 1))

/-- A concrete stand-in for the library's local-matrix composition. -/
def comp0 : (ℝ × ℝ × ℝ) → (ℝ × ℝ × ℝ × ℝ) → (ℝ × ℝ × ℝ) → List ℝ :=
  fun _ _ _ => []

/-- A concrete stand-in for the library's YXZ Euler extraction. -/
def eul0 : ℝ × ℝ × ℝ × ℝ → ℝ × ℝ × ℝ := fun _ => (0, 0, 0)

/-- A concrete camera in its pre-calibration state. -/
def cam0 : Camera :=
  { fov := 75, aspect := 2, near := 1, far := 2000, matrixAutoUpdate := true,
    matrix := [], matrixWorld := [], position := (0, 0, 0), quaternion := (0, 0, 0, 1),
    scale := (1, 1, 1) }

/-- A concrete camera whose world position is `(0, 0, 10)`. -/
def camAt10 : Camera :=
  { fov := 90, aspect := 1, near := 1, far := 2000, matrixAutoUpdate := false,
    matrix := [], matrixWorld := [1, 0, 0, 0, 0, 1, 0, 0, 0, 0, 1, 0, 0, 0, 10, 1],
    position := (0, 0, 10), quaternion := (0, 0, 0, 1), scale := (1, 1, 1) }

/-- A concrete fSpy record whose camera transform has zero rows (invalid shape). -/
def fspyBad : FspyData :=
  { principalPoint := ⟨0, 0⟩, viewTransform := ⟨[]⟩, cameraTransform := ⟨[]⟩,
    horizontalFieldOfView := 1, verticalFieldOfView := 1, vanishingPoints := [],
    vanishingPointAxes := [], relativeFocalLength := 1, imageWidth := 1, imageHeight := 1 }

/-- A concrete pre-calibration converter state (no record held). -/
def st0 : FspyVmdConverterState :=
  { camera := cam0, fspyData := none, distanceBaseMultiplier := 5 }

/-- A concrete post-calibration converter state with default base multiplier 5. -/
def stAt10 : FspyVmdConverterState :=
  { camera := camAt10, fspyData := some fspyBad, distanceBaseMultiplier := 5 }

/-- All-default apply options. -/
def apopts0 : ApplyFSpyToCameraOptions := {}

/-- All-default export options. -/
def exopts0 : ExportVmdOptions := {}

/-- C1 counterexample: calling `applyFSpyToCamera` on a record whose
transform fails shape validation raises the typed error, yet the held
calibration record has already been replaced, so the converter is not left
exactly as it was before the call. -/
theorem C1_atomicity_counterexample :
    (applyFSpyToCamera dec0 comp0 st0 fspyBad apopts0).2 =
      some FspyVmdConverterErrorCode.INVALID_CAMERA_TRANSFORM_ROWS_SIZE
    ∧ (applyFSpyToCamera dec0 comp0 st0 fspyBad apopts0).1.fspyData ≠ st0.fspyData := by
  refine ⟨rfl, ?_⟩
  have h : (applyFSpyToCamera dec0 comp0 st0 fspyBad apopts0).1.fspyData = some fspyBad := rfl
  rw [h]
  simp [st0]

/-- C1 (amended): when `applyFSpyToCamera` raises a matrix validation error,
the camera's world matrix, local matrix, position, quaternion, scale and
`matrixAutoUpdate` flag are left unchanged, but the held calibration record
has already been replaced by the new one and the camera's fov, aspect, near
and far have already been assigned their new values. -/
theorem C1_apply_error_partial_mutation
    (decompose : List ℝ → (ℝ × ℝ × ℝ) × (ℝ × ℝ × ℝ × ℝ) × (ℝ × ℝ × ℝ))
    (compose : (ℝ × ℝ × ℝ) → (ℝ × ℝ × ℝ × ℝ) → (ℝ × ℝ × ℝ) → List ℝ)
    (st : FspyVmdConverterState) (fspy : FspyData) (opts : ApplyFSpyToCameraOptions)
    (st' : FspyVmdConverterState) (e : FspyVmdConverterErrorCode)
    (h : applyFSpyToCamera decompose compose st fspy opts = (st', some e)) :
    (st'.camera.matrixWorld = st.camera.matrixWorld
      ∧ st'.camera.matrix = st.camera.matrix
      ∧ st'.camera.position = st.camera.position
      ∧ st'.camera.quaternion = st.camera.quaternion
      ∧ st'.camera.scale = st.camera.scale
      ∧ st'.camera.matrixAutoUpdate = st.camera.matrixAutoUpdate
      ∧ st'.distanceBaseMultiplier = st.distanceBaseMultiplier)
    ∧ (st'.fspyData = some fspy
      ∧ st'.camera.fov = radToDeg fspy.verticalFieldOfView
      ∧ st'.camera.aspect = fspy.imageWidth / fspy.imageHeight
      ∧ st'.camera.near = opts.near.getD DEFAULT_NEAR
      ∧ st'.camera.far = opts.far.getD DEFAULT_FAR) := by
  cases hm : matrixFromFSpyRows (α := ℝ) fspy.cameraTransform.rows with
  | ok camWorld =>
    rw [applyFSpyToCamera] at h
    rw [hm] at h
    simp at h
  | error e2 =>
    rw [applyFSpyToCamera] at h
    rw [hm] at h
    simp only [Prod.mk.injEq, Option.some.injEq] at h
    obtain ⟨hst, _⟩ := h
    subst hst
    simp

theorem C1_apply_error_partial_mutation_witness :
    (applyFSpyToCamera dec0 comp0 st0 fspyBad apopts0).1.camera.matrixWorld =
      st0.camera.matrixWorld
    ∧ (applyFSpyToCamera dec0 comp0 st0 fspyBad apopts0).1.fspyData = some fspyBad := by
  have h := C1_apply_error_partial_mutation dec0 comp0 st0 fspyBad apopts0
    (applyFSpyToCamera dec0 comp0 st0 fspyBad apopts0).1
    FspyVmdConverterErrorCode.INVALID_CAMERA_TRANSFORM_ROWS_SIZE rfl
  exact ⟨h.1.1, h.2.1⟩

/-- C4: the exported `distance` is the negated Euclidean distance from the
camera's world position to the target, times `distanceMultiplier` (default 1)
and `distanceBaseMultiplier`; concretely, a camera at world position
`(0,0,10)` with target `(0,0,0)` and default options yields `-50`. -/
theorem C4_distance_formula :
    (∀ (decompose : List ℝ → (ℝ × ℝ × ℝ) × (ℝ × ℝ × ℝ × ℝ) × (ℝ × ℝ × ℝ))
      (eulerYXZ : ℝ × ℝ × ℝ × ℝ → ℝ × ℝ × ℝ)
      (st : FspyVmdConverterState) (options : ExportVmdOptions),
      (deriveCameraFrame decompose eulerYXZ st options).distance =
        -Real.sqrt
            (((getWorldPosition st.camera).1 - (options.target.getD (0, 0, 0)).1) ^ 2 +
              ((getWorldPosition st.camera).2.1 - (options.target.getD (0, 0, 0)).2.1) ^ 2 +
              ((getWorldPosition st.camera).2.2 - (options.target.getD (0, 0, 0)).2.2) ^ 2) *
          options.distanceMultiplier.getD 1 * st.distanceBaseMultiplier)
    ∧ (deriveCameraFrame dec0 eul0 stAt10 exopts0).distance = -50 := by
  have key : ∀ (decompose : List ℝ → (ℝ × ℝ × ℝ) × (ℝ × ℝ × ℝ × ℝ) × (ℝ × ℝ × ℝ))
      (eulerYXZ : ℝ × ℝ × ℝ × ℝ → ℝ × ℝ × ℝ)
      (st : FspyVmdConverterState) (options : ExportVmdOptions),
      (deriveCameraFrame decompose eulerYXZ st options).distance =
        -Real.sqrt
            (((getWorldPosition st.camera).1 - (options.target.getD (0, 0, 0)).1) ^ 2 +
              ((getWorldPosition st.camera).2.1 - (options.target.getD (0, 0, 0)).2.1) ^ 2 +
              ((getWorldPosition st.camera).2.2 - (options.target.getD (0, 0, 0)).2.2) ^ 2) *
          options.distanceMultiplier.getD 1 * st.distanceBaseMultiplier := by
    intro decompose eulerYXZ st options
    rfl
  refine ⟨key, ?_⟩
  rw [key dec0 eul0 stAt10 exopts0]
  have hpos : getWorldPosition stAt10.camera = ((0 : ℝ), (0 : ℝ), (10 : ℝ)) := by
    simp [getWorldPosition, stAt10, camAt10]
  rw [hpos]
  have htarget : (exopts0.target.getD (0, 0, 0)) = ((0 : ℝ), (0 : ℝ), (0 : ℝ)) := rfl
  rw [htarget]
  have hdm : exopts0.distanceMultiplier.getD 1 = (1 : ℝ) := rfl
  have hbase : stAt10.distanceBaseMultiplier = (5 : ℝ) := rfl
  rw [hdm, hbase]
  have h100 : ((0 : ℝ) - 0) ^ 2 + ((0 : ℝ) - 0) ^ 2 + ((10 : ℝ) - 0) ^ 2 = 10 ^ 2 := by
    norm_num
  rw [h100, Real.sqrt_sq (by norm_num : (0 : ℝ) ≤ 10)]
  norm_num

/-- C5: exporting while no fSpy record has ever been applied fails with
`FSPY_DATA_NOT_SET` and returns no buffer, for every camera state and every
option choice. -/
theorem C5_export_requires_fspy_data (enc32 : ℝ → List ℕ)
    (decompose : List ℝ → (ℝ × ℝ × ℝ) × (ℝ × ℝ × ℝ × ℝ) × (ℝ × ℝ × ℝ))
    (eulerYXZ : ℝ × ℝ × ℝ × ℝ → ℝ × ℝ × ℝ)
    (camera : Camera) (dbm : ℝ) (options : ExportVmdOptions) :
    (exportVmd enc32 decompose eulerYXZ ⟨camera, none, dbm⟩ options).1 =
      Except.error FspyVmdConverterErrorCode.FSPY_DATA_NOT_SET := rfl

/-- C8: in the exported frame, the YXZ Euler decomposition of the camera's
world orientation has only its Z component negated; X and Y pass through
unchanged. -/
theorem C8_only_z_rotation_negated
    (decompose : List ℝ → (ℝ × ℝ × ℝ) × (ℝ × ℝ × ℝ × ℝ) × (ℝ × ℝ × ℝ))
    (eulerYXZ : ℝ × ℝ × ℝ × ℝ → ℝ × ℝ × ℝ)
    (st : FspyVmdConverterState) (options : ExportVmdOptions) :
    (deriveCameraFrame decompose eulerYXZ st options).rotation =
      ((eulerYXZ (getWorldQuaternion decompose st.camera)).1,
       (eulerYXZ (getWorldQuaternion decompose st.camera)).2.1,
       -(eulerYXZ (getWorldQuaternion decompose st.camera)).2.2) := rfl

/-- C9: `exportVmd` assigns no converter field, so its state output equals
its state input, and a second call on that state with the same options
returns a byte-identical result; the binary writer itself is a pure Lean
function of the frame list. -/
theorem C9_export_deterministic (enc32 : ℝ → List ℕ)
    (decompose : List ℝ → (ℝ × ℝ × ℝ) × (ℝ × ℝ × ℝ × ℝ) × (ℝ × ℝ × ℝ))
    (eulerYXZ : ℝ × ℝ × ℝ × ℝ → ℝ × ℝ × ℝ)
    (st : FspyVmdConverterState) (options : ExportVmdOptions) :
    (exportVmd enc32 decompose eulerYXZ st options).2 = st
    ∧ (exportVmd enc32 decompose eulerYXZ
        (exportVmd enc32 decompose eulerYXZ st options).2 options).1 =
      (exportVmd enc32 decompose eulerYXZ st options).1 := by
  obtain ⟨camera, fd, dbm⟩ := st
  cases fd <;> simp [exportVmd]

/-- C10: whenever a record is held, `exportVmd` encodes exactly the
singleton frame list; the resulting buffer is always 135 bytes and its
camera-frame count field decodes to 1, for every option choice. -/
theorem C10_export_always_one_frame (enc32 : ℝ → List ℕ)
    (henc : ∀ v, (enc32 v).length = 4)
    (decompose : List ℝ → (ℝ × ℝ × ℝ) × (ℝ × ℝ × ℝ × ℝ) × (ℝ × ℝ × ℝ))
    (eulerYXZ : ℝ × ℝ × ℝ × ℝ → ℝ × ℝ × ℝ)
    (camera : Camera) (fspy : FspyData) (dbm : ℝ) (options : ExportVmdOptions) :
    (exportVmd enc32 decompose eulerYXZ ⟨camera, some fspy, dbm⟩ options).1 =
      Except.ok (writeCameraVmd enc32
        [deriveCameraFrame decompose eulerYXZ ⟨camera, some fspy, dbm⟩ options])
    ∧ (writeCameraVmd enc32
        [deriveCameraFrame decompose eulerYXZ ⟨camera, some fspy, dbm⟩ options]).length = 135
    ∧ readUint32LE (writeCameraVmd enc32
        [deriveCameraFrame decompose eulerYXZ ⟨camera, some fspy, dbm⟩ options]) 58 = 1 := by
  refine ⟨rfl, ?_, ?_⟩
  · rw [writeCameraVmd_length enc32 henc]
    simp
  · rw [readUint32LE_writeCameraVmd]
    norm_num

theorem C10_export_always_one_frame_witness :
    (exportVmd enc0 dec0 eul0 ⟨camAt10, some fspyBad, 5⟩ exopts0).1 =
      Except.ok (writeCameraVmd enc0
        [deriveCameraFrame dec0 eul0 ⟨camAt10, some fspyBad, 5⟩ exopts0])
    ∧ (writeCameraVmd enc0
        [deriveCameraFrame dec0 eul0 ⟨camAt10, some fspyBad, 5⟩ exopts0]).length = 135
    ∧ readUint32LE (writeCameraVmd enc0
        [deriveCameraFrame dec0 eul0 ⟨camAt10, some fspyBad, 5⟩ exopts0]) 58 = 1 :=
  C10_export_always_one_frame enc0 (fun v => rfl) dec0 eul0 camAt10 fspyBad 5 exopts0

end Fspy2Vmd
